import Mathlib

/-!
Verification of the ride-dispatch, registration, routing and user-materialization
logic of this repository (a role-based assistance web application).  Each
definition below is a shallow embedding of a source function; the theorems
settle the specification claims against those embeddings.  Timestamps are
abstracted to natural numbers and database rows to Lean structures.
-/

/-- Ride request status, from the RideRequest interface in src/types/index.ts. -/
inductive RideStatus
  | pending
  | accepted
  | rejected
  | completed
deriving DecidableEq, Repr

/-- A row of the ride_requests table, from the RideRequest interface in
src/types/index.ts (fields not touched by the claims are omitted; timestamps
abstracted to Nat, row ids to Nat). -/
structure RideRequest where
  id : Nat
  student_id : String
  driver_id : Option String
  pickup_location : String
  destination : String
  status : RideStatus
  updated_at : Nat
deriving DecidableEq, Repr

/-- The ride_requests table held by the entity store. -/
abbrev RideStore := List RideRequest

/-- The lifecycle-transition error taxonomy of the specification. -/
inductive TransitionError
  | InvalidStateTransition
  | ConflictError
deriving DecidableEq, Repr

/-- Row lookup by id, as the store filters rows with an id equality condition. -/
def findRide (store : RideStore) (rideId : Nat) : Option RideRequest :=
  store.find? fun r => r.id == rideId

/-- The store write issued by handleCompleteRide in
src/src/components/DriverRides.tsx: an update setting status to completed and
updated_at to now, filtered by id = rideId and driver_id = userId.  Every row
matching both filters is rewritten; the current status is not examined by the
filter. -/
def completeRideUpdate (store : RideStore) (rideId : Nat) (userId : String)
    (now : Nat) : RideStore :=
  store.map fun r =>
    if r.id = rideId ∧ r.driver_id = some userId then
      { r with status := RideStatus.completed, updated_at := now }
    else r

/-- handleCompleteRide (src/src/components/DriverRides.tsx): issues the
conditional update above.  An update whose filter matches zero rows reports no
error, so the handler raises no transition error in any case (backend
availability failures are outside the model). -/
def handleCompleteRide (store : RideStore) (rideId : Nat) (userId : String)
    (now : Nat) : RideStore × Option TransitionError :=
  (completeRideUpdate store rideId userId now, none)

/-- Modelled from the spec: rideService.acceptRide is imported from
src/services/rideService, a file not present under src.  Spec 4.2: accept
preconditions are that the request is pending with no fulfiller yet assigned;
the effect sets the fulfiller, status accepted and the timestamp, expressed as
one atomic conditional update at the store boundary (update only if still
pending, first writer wins); a request already claimed fails with
ConflictError. -/
def acceptRide (store : RideStore) (rideId : Nat) (driverId : String)
    (now : Nat) : RideStore × Option TransitionError :=
  match findRide store rideId with
  | none => (store, some TransitionError.InvalidStateTransition)
  | some r =>
      if r.status = RideStatus.pending ∧ r.driver_id = none then
        (store.map fun q =>
            if q.id == rideId then
              { q with
                status := RideStatus.accepted
                driver_id := some driverId
                updated_at := now }
            else q,
         none)
      else (store, some TransitionError.ConflictError)

/-- A pending, unclaimed ride used as a concrete witness input. -/
def pendingRideEx : RideRequest :=
  { id := 1
    student_id := "s1"
    driver_id := none
    pickup_location := "Campus Gate"
    destination := "Library"
    status := RideStatus.pending
    updated_at := 0 }

/-- A rejected ride already carrying a driver id, used as a concrete
counterexample input. -/
def rejectedRideEx : RideRequest :=
  { id := 1
    student_id := "s1"
    driver_id := some "d1"
    pickup_location := "Campus Gate"
    destination := "Library"
    status := RideStatus.rejected
    updated_at := 0 }

/-- Mapping a conditional rewrite over the store changes no row when no row
satisfies the update filter. -/
theorem map_cond_id {α : Type} (p : α → Prop) [DecidablePred p] (f : α → α)
    (l : List α) (h : ∀ a ∈ l, ¬ p a) :
    (l.map fun a => if p a then f a else a) = l := by
  induction l with
  | nil => rfl
  | cons a l ih =>
    simp only [List.map_cons]
    rw [if_neg (h a (List.mem_cons_self a l)),
      ih fun b hb => h b (List.mem_cons_of_mem a hb)]

/-- Rewriting the row with the looked-up id through an id-preserving update
commutes with the lookup. -/
theorem findRide_map_claim (store : RideStore) (rideId : Nat)
    (g : RideRequest → RideRequest) (hg : ∀ q, (g q).id = q.id)
    (r : RideRequest) (h : findRide store rideId = some r) :
    findRide (store.map fun q => if q.id == rideId then g q else q) rideId
      = some (g r) := by
  induction store with
  | nil => simp [findRide] at h
  | cons a l ih =>
    simp only [findRide] at h ih ⊢
    by_cases ha : (a.id == rideId) = true
    · rw [List.find?_cons_of_pos (p := fun q : RideRequest => q.id == rideId)
        l ha] at h
      have hra : a = r := Option.some.inj h
      subst hra
      have hga : ((g a).id == rideId) = true := by rw [hg a]; exact ha
      simp only [List.map_cons, if_pos ha]
      exact List.find?_cons_of_pos (p := fun q : RideRequest => q.id == rideId)
        _ hga
    · rw [List.find?_cons_of_neg (p := fun q : RideRequest => q.id == rideId)
        l ha] at h
      simp only [List.map_cons, if_neg ha]
      rw [List.find?_cons_of_neg (p := fun q : RideRequest => q.id == rideId)
        _ ha]
      exact ih h

/-- C1 fails on the code: a ride already in status rejected whose stored
driver_id matches the caller is rewritten to completed by handleCompleteRide;
the stored record changes and no InvalidStateTransition is reported. -/
theorem complete_mutates_without_accepted_status :
    (handleCompleteRide [rejectedRideEx] 1 "d1" 5).2
      ≠ some TransitionError.InvalidStateTransition ∧
    (handleCompleteRide [rejectedRideEx] 1 "d1" 5).1 ≠ [rejectedRideEx] := by
  decide

/-- C1 amended: handleCompleteRide never reports a transition error; it leaves
the store unchanged exactly when no row carries the given id with the caller as
stored driver, and it rewrites every row whose id and stored driver match to
completed regardless of that row's current status. -/
theorem complete_requires_only_driver_match (store : RideStore) (rideId : Nat)
    (userId : String) (now : Nat) :
    (handleCompleteRide store rideId userId now).2 = none ∧
    ((∀ r ∈ store, ¬(r.id = rideId ∧ r.driver_id = some userId)) →
        (handleCompleteRide store rideId userId now).1 = store) ∧
    (∀ r ∈ store, r.id = rideId → r.driver_id = some userId →
        { r with status := RideStatus.completed, updated_at := now }
          ∈ (handleCompleteRide store rideId userId now).1) := by
  refine ⟨rfl, ?_, ?_⟩
  · intro h
    exact map_cond_id _ _ store h
  · intro r hr hid hdrv
    exact List.mem_map.mpr ⟨r, hr, by rw [if_pos ⟨hid, hdrv⟩]⟩

/-- Witness for the amended C1 theorem at a concrete store. -/
theorem complete_requires_only_driver_match_witness :
    { rejectedRideEx with status := RideStatus.completed, updated_at := 7 }
      ∈ (handleCompleteRide [rejectedRideEx] 1 "d1" 7).1 :=
  (complete_requires_only_driver_match [rejectedRideEx] 1 "d1" 7).2.2
    rejectedRideEx (List.mem_singleton.mpr rfl) rfl rfl

/-- An accept against a request that already carries a fulfiller fails with
ConflictError and leaves the store untouched. -/
theorem accept_claimed_conflict (store : RideStore) (rideId : Nat)
    (d : String) (now : Nat) (r : RideRequest)
    (hfind : findRide store rideId = some r)
    (hclaimed : r.driver_id ≠ none) :
    acceptRide store rideId d now
      = (store, some TransitionError.ConflictError) := by
  unfold acceptRide
  rw [hfind]
  dsimp only
  rw [if_neg]
  intro hcontra
  exact hclaimed hcontra.2

/-- C2: on a pending unclaimed ride, of two accepts by different drivers the
first succeeds, the second fails with ConflictError without touching the store,
and the stored fulfiller afterwards is the winner. -/
theorem accept_race_exactly_one_wins (store : RideStore) (rideId : Nat)
    (d1 d2 : String) (now1 now2 : Nat) (r : RideRequest)
    (hfind : findRide store rideId = some r)
    (hpend : r.status = RideStatus.pending)
    (hfree : r.driver_id = none)
    (hne : d1 ≠ d2) :
    (acceptRide store rideId d1 now1).2 = none ∧
    (acceptRide (acceptRide store rideId d1 now1).1 rideId d2 now2).2
        = some TransitionError.ConflictError ∧
    (acceptRide (acceptRide store rideId d1 now1).1 rideId d2 now2).1
        = (acceptRide store rideId d1 now1).1 ∧
    findRide (acceptRide (acceptRide store rideId d1 now1).1 rideId d2 now2).1
        rideId
      = some { r with
                status := RideStatus.accepted
                driver_id := some d1
                updated_at := now1 } := by
  have h1 : acceptRide store rideId d1 now1
      = (store.map fun q =>
            if q.id == rideId then
              { q with
                status := RideStatus.accepted
                driver_id := some d1
                updated_at := now1 }
            else q,
         none) := by
    unfold acceptRide
    rw [hfind]
    simp only [if_pos (And.intro hpend hfree)]
  have h2 : findRide (acceptRide store rideId d1 now1).1 rideId
      = some { r with
                status := RideStatus.accepted
                driver_id := some d1
                updated_at := now1 } := by
    rw [h1]
    exact findRide_map_claim store rideId
      (fun q => { q with
                  status := RideStatus.accepted
                  driver_id := some d1
                  updated_at := now1 })
      (fun q => rfl) r hfind
  have h3 : acceptRide (acceptRide store rideId d1 now1).1 rideId d2 now2
      = ((acceptRide store rideId d1 now1).1,
         some TransitionError.ConflictError) :=
    accept_claimed_conflict _ rideId d2 now2 _ h2
      (fun hc => Option.noConfusion hc)
  exact ⟨by rw [h1], by rw [h3], by rw [h3], by rw [h3]; exact h2⟩

/-- Witness for the C2 theorem at a concrete pending ride and two drivers. -/
theorem accept_race_exactly_one_wins_witness :
    (acceptRide [pendingRideEx] 1 "driverA" 3).2 = none ∧
    (acceptRide (acceptRide [pendingRideEx] 1 "driverA" 3).1 1 "driverB" 4).2
        = some TransitionError.ConflictError ∧
    (acceptRide (acceptRide [pendingRideEx] 1 "driverA" 3).1 1 "driverB" 4).1
        = (acceptRide [pendingRideEx] 1 "driverA" 3).1 ∧
    findRide (acceptRide (acceptRide [pendingRideEx] 1 "driverA" 3).1
        1 "driverB" 4).1 1
      = some { pendingRideEx with
                status := RideStatus.accepted
                driver_id := some "driverA"
                updated_at := 3 } :=
  accept_race_exactly_one_wins [pendingRideEx] 1 "driverA" "driverB" 3 4
    pendingRideEx rfl rfl rfl (by decide)

/-- Maximum video upload size, from handleFileChange in
src/src/pages/Register.tsx. -/
def maxVideoSize : Nat := 100 * 1024 * 1024

/-- Maximum size for images and PDFs, from handleFileChange in
src/src/pages/Register.tsx. -/
def maxSize : Nat := 2 * 1024 * 1024

/-- A file selected in the registration form: its MIME type string, byte size,
and decoded pixel dimensions (meaningful when the file is an image). -/
structure SelectedFile where
  mimeType : String
  size : Nat
  width : Nat
  height : Nat
deriving DecidableEq, Repr

/-- The video test of handleFileChange, on the character-list view of the MIME
string: the first six characters spell the video kind. -/
def mimeIsVideo (s : String) : Bool :=
  decide (s.data.take 6 = "video/".data)

/-- The image test of handleFileChange: the first six characters of the MIME
string spell the image kind. -/
def mimeIsImage (s : String) : Bool :=
  decide (s.data.take 6 = "image/".data)

/-- The PDF test of handleFileChange: the MIME string equals application/pdf. -/
def mimeIsPDF (s : String) : Bool :=
  decide (s = "application/pdf")

/-- The file slots of the registration form state in
src/src/pages/Register.tsx. -/
structure RegFormFiles where
  disabilityVideo : Option SelectedFile
  profilePicture : Option SelectedFile
  applicationLetter : Option SelectedFile
deriving DecidableEq, Repr

/-- handleFileChange (src/src/pages/Register.tsx): branches on the file kind,
rejects a file over its limit (alert plus input reset, modelled by a true
second component) without touching the form, and otherwise stores the file in
its slot.  The image branch checks byte size and the decoded pixel dimensions.
No store or storage call occurs in this handler; the later registration upload
reads only the stored slots. -/
def handleFileChange (form : RegFormFiles) (f : SelectedFile) :
    RegFormFiles × Bool :=
  if mimeIsVideo f.mimeType then
    if f.size > maxVideoSize then (form, true)
    else ({ form with disabilityVideo := some f }, false)
  else if mimeIsImage f.mimeType then
    if f.size > maxSize ∨ f.width > 1024 ∨ f.height > 1024 then (form, true)
    else ({ form with profilePicture := some f }, false)
  else if mimeIsPDF f.mimeType then
    if f.size > maxSize then (form, true)
    else ({ form with applicationLetter := some f }, false)
  else (form, false)

/-- The size and dimension constraints of the specification: videos at most
100MB, images at most 2MB and at most 1024 by 1024, PDFs at most 2MB. -/
def fileOk (f : SelectedFile) : Prop :=
  (mimeIsVideo f.mimeType = true → f.size ≤ maxVideoSize) ∧
  (mimeIsImage f.mimeType = true →
      f.size ≤ maxSize ∧ f.width ≤ 1024 ∧ f.height ≤ 1024) ∧
  (mimeIsPDF f.mimeType = true → f.size ≤ maxSize)

instance (f : SelectedFile) : Decidable (fileOk f) := by
  unfold fileOk
  infer_instance

/-- A MIME string cannot pass both the video test and the image test. -/
theorem video_not_image {s : String} (h : mimeIsVideo s = true) :
    ¬ mimeIsImage s = true := by
  intro h2
  have h1 : s.data.take 6 = "video/".data := of_decide_eq_true h
  have h3 : s.data.take 6 = "image/".data := of_decide_eq_true h2
  rw [h1] at h3
  exact absurd h3 (by decide)

/-- A MIME string equal to application/pdf passes neither the video test nor
the image test. -/
theorem pdf_not_video_not_image {s : String} (h : mimeIsPDF s = true) :
    ¬ mimeIsVideo s = true ∧ ¬ mimeIsImage s = true := by
  have hs : s = "application/pdf" := of_decide_eq_true h
  subst hs
  exact ⟨by decide, by decide⟩

/-- C3: a selected file violating its size or dimension constraint is rejected
by handleFileChange with the form left unchanged, so the file reaches no form
slot and hence no later store or storage call. -/
theorem oversized_file_rejected_before_store (form : RegFormFiles)
    (f : SelectedFile) (hbad : ¬ fileOk f) :
    handleFileChange form f = (form, true) := by
  by_cases hv : mimeIsVideo f.mimeType = true
  · have hi : ¬ mimeIsImage f.mimeType = true := video_not_image hv
    have hp : ¬ mimeIsPDF f.mimeType = true := by
      intro hpdf
      exact (pdf_not_video_not_image hpdf).1 hv
    have hsize : f.size > maxVideoSize := by
      by_contra hle
      exact hbad ⟨fun _ => not_lt.mp hle, fun h => absurd h hi,
        fun h => absurd h hp⟩
    unfold handleFileChange
    rw [if_pos hv, if_pos hsize]
  · by_cases hi : mimeIsImage f.mimeType = true
    · have hp : ¬ mimeIsPDF f.mimeType = true := by
        intro hpdf
        exact (pdf_not_video_not_image hpdf).2 hi
      have hviol : f.size > maxSize ∨ f.width > 1024 ∨ f.height > 1024 := by
        by_contra hno
        push_neg at hno
        exact hbad ⟨fun h => absurd h hv,
          fun _ => ⟨hno.1, hno.2.1, hno.2.2⟩, fun h => absurd h hp⟩
      unfold handleFileChange
      rw [if_neg hv, if_pos hi, if_pos hviol]
    · by_cases hp : mimeIsPDF f.mimeType = true
      · have hsize : f.size > maxSize := by
          by_contra hle
          exact hbad ⟨fun h => absurd h hv, fun h => absurd h hi,
            fun _ => not_lt.mp hle⟩
        unfold handleFileChange
        rw [if_neg hv, if_neg hi, if_pos hp, if_pos hsize]
      · exact absurd ⟨fun h => absurd h hv, fun h => absurd h hi,
          fun h => absurd h hp⟩ hbad

/-- Witness for the C3 theorem: a 3MB PNG profile picture violates the image
constraint and is rejected with the form unchanged. -/
theorem oversized_file_rejected_before_store_witness :
    handleFileChange
        { disabilityVideo := none
          profilePicture := none
          applicationLetter := none }
        { mimeType := "image/png"
          size := 3 * 1024 * 1024
          width := 800
          height := 600 }
      = ({ disabilityVideo := none
           profilePicture := none
           applicationLetter := none }, true) :=
  oversized_file_rejected_before_store
    { disabilityVideo := none
      profilePicture := none
      applicationLetter := none }
    { mimeType := "image/png"
      size := 3 * 1024 * 1024
      width := 800
      height := 600 }
    (by decide)

/-- A row of the public.users table, from the INSERT column list in
src/debug_otp_complete.sql and the User interface in src/types/index.ts (role
kept as the raw string the trigger writes). -/
structure UsersRow where
  id : String
  email : String
  first_name : String
  last_name : String
  role : String
  created_at : Nat
deriving DecidableEq, Repr

/-- A credential-registration event: the NEW auth row seen by the trigger,
with the fields of raw_user_meta_data it reads. -/
structure AuthUser where
  id : String
  email : String
  meta_first_name : Option String
  meta_last_name : Option String
  meta_role : Option String
  created_at : Nat
deriving DecidableEq, Repr

/-- handle_new_auth_user (src/debug_otp_complete.sql): inserts a users row
built from the auth event, names and role defaulted through COALESCE, and ON
CONFLICT (id) DO NOTHING turns an insert for an existing id into a silent
no-op. -/
def handle_new_auth_user (users : List UsersRow) (u : AuthUser) :
    List UsersRow :=
  if users.any fun r => r.id == u.id then users
  else
    users ++ [{ id := u.id
                email := u.email
                first_name := u.meta_first_name.getD ""
                last_name := u.meta_last_name.getD ""
                role := u.meta_role.getD "student"
                created_at := u.created_at }]

/-- C4: the post-registration hook is idempotent keyed by the user id: running
it again for the same event finds the id already present, changes nothing and
raises no error. -/
theorem handle_new_auth_user_idempotent (users : List UsersRow)
    (u : AuthUser) :
    handle_new_auth_user (handle_new_auth_user users u) u
      = handle_new_auth_user users u := by
  by_cases h : (users.any fun r => r.id == u.id) = true
  · unfold handle_new_auth_user
    rw [if_pos h, if_pos h]
  · unfold handle_new_auth_user
    rw [if_neg h, if_pos]
    rw [List.any_append]
    simp

/-- The closed role set, from the role field of the User interface in
src/types/index.ts. -/
def validRoles : List String := ["admin", "helper", "student", "driver"]

/-- The role choices the registration form offers, from the role select items
in src/src/pages/Register.tsx. -/
def registerRoleOptions : List String :=
  ["student", "helper", "driver", "admin"]

/-- C7 fails on the code: the trigger copies any metadata role string
verbatim, so a credential event carrying the role superuser materializes an
Actor record whose role lies outside the closed set. -/
theorem hook_materializes_arbitrary_role :
    handle_new_auth_user []
        { id := "u1"
          email := "u1@example.com"
          meta_first_name := none
          meta_last_name := none
          meta_role := some "superuser"
          created_at := 0 }
      = [{ id := "u1"
           email := "u1@example.com"
           first_name := ""
           last_name := ""
           role := "superuser"
           created_at := 0 }] ∧
    validRoles.contains "superuser" = false := by
  decide

/-- C7 amended: the registration form offers only the four closed-set roles
and the trigger defaults a missing role to student, so whenever the metadata
role is absent or one of the form's options, every row the hook materializes
beyond those already present carries a role in the closed set; but the trigger
itself copies any metadata role string verbatim. -/
theorem hook_role_valid_for_form_roles (users : List UsersRow) (u : AuthUser)
    (hrole : u.meta_role = none ∨
        ∃ s ∈ registerRoleOptions, u.meta_role = some s) :
    ∀ r ∈ handle_new_auth_user users u,
      r ∈ users ∨ validRoles.contains r.role = true := by
  intro r hr
  unfold handle_new_auth_user at hr
  by_cases h : (users.any fun q => q.id == u.id) = true
  · rw [if_pos h] at hr
    exact Or.inl hr
  · rw [if_neg h] at hr
    rcases List.mem_append.mp hr with hmem | hnew
    · exact Or.inl hmem
    · refine Or.inr ?_
      have hr' := List.mem_singleton.mp hnew
      subst hr'
      rcases hrole with hnone | ⟨s, hs, hsome⟩
      · rw [hnone]
        dsimp only
        decide
      · rw [hsome]
        dsimp only
        rw [Option.getD_some]
        simp only [registerRoleOptions, List.mem_cons,
          List.not_mem_nil, or_false] at hs
        rcases hs with h1 | h1 | h1 | h1 <;> subst h1 <;> decide

/-- A credential event with a closed-set metadata role, used as a concrete
witness input. -/
def driverAuthEx : AuthUser :=
  { id := "u2"
    email := "d@example.com"
    meta_first_name := none
    meta_last_name := none
    meta_role := some "driver"
    created_at := 0 }

/-- Witness for the amended C7 theorem at a concrete event. -/
theorem hook_role_valid_for_form_roles_witness :
    ({ id := "u2"
       email := "d@example.com"
       first_name := ""
       last_name := ""
       role := "driver"
       created_at := 0 } : UsersRow) ∈ ([] : List UsersRow) ∨
    validRoles.contains ({ id := "u2"
                           email := "d@example.com"
                           first_name := ""
                           last_name := ""
                           role := "driver"
                           created_at := 0 } : UsersRow).role = true :=
  hook_role_valid_for_form_roles [] driverAuthEx
    (Or.inr ⟨"driver", by decide, rfl⟩) _ (by decide)

/-- C10: when the metadata lacks first_name, last_name and role, the hook
still materializes the Actor record, with empty names and the role defaulted
to student, raising no error. -/
theorem hook_defaults_missing_metadata (users : List UsersRow) (u : AuthUser)
    (h1 : u.meta_first_name = none) (h2 : u.meta_last_name = none)
    (h3 : u.meta_role = none)
    (hfresh : (users.any fun r => r.id == u.id) = false) :
    handle_new_auth_user users u
      = users ++ [{ id := u.id
                    email := u.email
                    first_name := ""
                    last_name := ""
                    role := "student"
                    created_at := u.created_at }] := by
  unfold handle_new_auth_user
  rw [if_neg (by rw [hfresh]; exact Bool.false_ne_true), h1, h2, h3]
  rfl

/-- Witness for the C10 theorem at a concrete metadata-free event. -/
theorem hook_defaults_missing_metadata_witness :
    handle_new_auth_user []
        { id := "u3"
          email := "u3@example.com"
          meta_first_name := none
          meta_last_name := none
          meta_role := none
          created_at := 9 }
      = [] ++ [{ id := "u3"
                 email := "u3@example.com"
                 first_name := ""
                 last_name := ""
                 role := "student"
                 created_at := 9 }] :=
  hook_defaults_missing_metadata []
    { id := "u3"
      email := "u3@example.com"
      meta_first_name := none
      meta_last_name := none
      meta_role := none
      created_at := 9 }
    rfl rfl rfl rfl

/-- The observable outcome of one ride-list poll cycle: console log lines,
toast notices shown to the user, and the new component state if any. -/
structure PollOutcome where
  logs : List String
  toasts : List String
  newState : Option (List RideRequest)
deriving DecidableEq, Repr

/-- loadPendingRides (src/src/components/DriverRides.tsx): a successful fetch
stores the rows; on a fetch error the catch block writes a console error and
shows a destructive toast, leaving the state as it was.  The polling interval
is untouched either way, so the next cycle fetches again. -/
def loadPendingRides (fetched : Except String (List RideRequest)) :
    PollOutcome :=
  match fetched with
  | Except.ok rides =>
      { logs := []
        toasts := []
        newState := some rides }
  | Except.error e =>
      { logs := ["Error loading pending rides: " ++ e]
        toasts := ["Failed to load pending rides. Please try again."]
        newState := none }

/-- C5 fails on the code: a failed ride-list poll is not silent; besides the
console log the catch block shows a destructive toast, a user-visible
notice. -/
theorem poll_failure_shows_toast :
    (loadPendingRides (Except.error "network down")).logs ≠ [] ∧
    (loadPendingRides (Except.error "network down")).toasts ≠ [] := by
  decide

/-- C5 amended: every ride-list poll failure is logged and additionally shows
a user-visible error toast; the component state is left unchanged and the
interval is untouched, so the poll retries on the next cycle. -/
theorem poll_failure_logs_and_toasts (e : String) :
    (loadPendingRides (Except.error e)).logs
        = ["Error loading pending rides: " ++ e] ∧
    (loadPendingRides (Except.error e)).toasts
        = ["Failed to load pending rides. Please try again."] ∧
    (loadPendingRides (Except.error e)).newState = none :=
  ⟨rfl, rfl, rfl⟩

/-- The two timers the DriverRides component can hold: the 5 second ride-list
poll started by the mount effect, and the 30 second driver-location push
started on a successful accept. -/
structure Timers where
  pollInterval : Bool
  locationInterval : Bool
deriving DecidableEq, Repr

/-- The timer-relevant events of DriverRides
(src/src/components/DriverRides.tsx): mount runs the effect and starts the
poll; a successful accept starts the location push (clearing any previous one
first, so the flag is simply set); rejecting the active ride or completing a
ride clears the location push; unmount runs the effect cleanup, which clears
the poll interval and nothing else. -/
inductive DriverRidesEvent
  | mount
  | acceptSuccess
  | rejectActiveRide
  | completeSuccess
  | unmount
deriving DecidableEq, Repr

/-- One step of the DriverRides timer state machine. -/
def timersStep (t : Timers) : DriverRidesEvent → Timers
  | DriverRidesEvent.mount => { t with pollInterval := true }
  | DriverRidesEvent.acceptSuccess => { t with locationInterval := true }
  | DriverRidesEvent.rejectActiveRide => { t with locationInterval := false }
  | DriverRidesEvent.completeSuccess => { t with locationInterval := false }
  | DriverRidesEvent.unmount => { t with pollInterval := false }

/-- The timers after a sequence of component events. -/
def timersRun (t : Timers) (evs : List DriverRidesEvent) : Timers :=
  evs.foldl timersStep t

/-- C6 fails on the code: mounting, accepting a ride and then unmounting
leaves the 30 second location interval running — the teardown cleanup clears
only the poll interval. -/
theorem location_interval_survives_unmount :
    (timersRun { pollInterval := false, locationInterval := false }
        [DriverRidesEvent.mount, DriverRidesEvent.acceptSuccess,
         DriverRidesEvent.unmount]).locationInterval = true := by
  decide

/-- C6 amended: teardown clears the 5 second poll interval and leaves the
location interval as it was; the location interval is cleared only by
completing a ride or rejecting the active ride. -/
theorem teardown_clears_only_poll_interval (t : Timers) :
    (timersStep t DriverRidesEvent.unmount).pollInterval = false ∧
    (timersStep t DriverRidesEvent.unmount).locationInterval
        = t.locationInterval ∧
    (timersStep t DriverRidesEvent.completeSuccess).locationInterval = false ∧
    (timersStep t DriverRidesEvent.rejectActiveRide).locationInterval
        = false :=
  ⟨rfl, rfl, rfl, rfl⟩

/-- Actor roles, the closed set from the User interface in src/types/index.ts. -/
inductive Role
  | admin
  | helper
  | student
  | driver
deriving DecidableEq, Repr

/-- A route guard from the route table of the routing module
(src/unnamed/part_001): a PublicRoute, or a ProtectedRoute optionally carrying
requiredRoles. -/
inductive RouteGuard
  | publicRoute
  | protectedRoute (requiredRoles : Option (List Role))
deriving DecidableEq, Repr

/-- The route table (src/unnamed/part_001). -/
def routes : List (String × RouteGuard) :=
  [("/", RouteGuard.publicRoute),
   ("/login", RouteGuard.publicRoute),
   ("/register", RouteGuard.protectedRoute (some [Role.admin])),
   ("/admin", RouteGuard.protectedRoute (some [Role.admin])),
   ("/confirmation-logs", RouteGuard.protectedRoute (some [Role.admin])),
   ("/complaint/list", RouteGuard.protectedRoute (some [Role.admin])),
   ("/helper", RouteGuard.protectedRoute (some [Role.helper])),
   ("/student", RouteGuard.protectedRoute (some [Role.student])),
   ("/driver", RouteGuard.protectedRoute (some [Role.driver])),
   ("/complaint", RouteGuard.protectedRoute none),
   ("/book-ride", RouteGuard.protectedRoute none),
   ("/messages", RouteGuard.protectedRoute none)]

/-- Modelled from the spec: the ProtectedRoute component (imported from the
auth utilities, a file not present under src) decides access for an
authenticated actor.  Spec 4.1: deny is the default and every permit is
explicitly enumerated, so a ProtectedRoute carrying requiredRoles permits
exactly the enumerated roles; one without requiredRoles is a shared route (the
route table's own comment) open to every authenticated role. -/
def protectedRoutePermits (req : Option (List Role)) (r : Role) : Bool :=
  match req with
  | some l => l.contains r
  | none => true

/-- Whether an authenticated actor of the given role may reach the given path
under the route table. -/
def routePermits (path : String) (r : Role) : Bool :=
  match routes.find? fun p => p.1 == path with
  | some (_, RouteGuard.protectedRoute req) => protectedRoutePermits req r
  | some (_, RouteGuard.publicRoute) => true
  | none => false

/-- C8: each role-gated route permits exactly its enumerated role — the four
admin routes permit only admins, and the helper, student and driver pages
permit only that respective role; every other role is denied there. -/
theorem role_gated_routes_permit_exactly_role (r : Role) :
    (routePermits "/register" r = true ↔ r = Role.admin) ∧
    (routePermits "/admin" r = true ↔ r = Role.admin) ∧
    (routePermits "/confirmation-logs" r = true ↔ r = Role.admin) ∧
    (routePermits "/complaint/list" r = true ↔ r = Role.admin) ∧
    (routePermits "/helper" r = true ↔ r = Role.helper) ∧
    (routePermits "/student" r = true ↔ r = Role.student) ∧
    (routePermits "/driver" r = true ↔ r = Role.driver) := by
  cases r <;> decide

/-- The digit filter of handleChange in src/src/pages/Register.tsx: the regex
replacement removing every character outside 0 to 9. -/
def stripNonDigits (s : String) : String :=
  String.mk (s.data.filter Char.isDigit)

/-- The text-field state of the registration form, indexed by input name, as
the JS object spread updates it. -/
abbrev FormState := String → String

/-- handleChange (src/src/pages/Register.tsx): a change event for
bankAccountNumber stores the value with non-digits stripped; a change event
for any other field stores its value verbatim; no other field is touched. -/
def handleChange (form : FormState) (name value : String) : FormState :=
  fun k =>
    if k = name then
      if name = "bankAccountNumber" then stripNonDigits value else value
    else form k

/-- The initial text-field state of the registration form: every field starts
empty. -/
def initialRegisterForm : FormState := fun _ => ""

/-- The form state after a sequence of change events, given as name and value
pairs. -/
def registerFormAfter (events : List (String × String)) : FormState :=
  events.foldl (fun f ev => handleChange f ev.1 ev.2) initialRegisterForm

/-- The digit filter produces only digit characters. -/
theorem all_digits_strip (s : String) :
    (stripNonDigits s).data.all Char.isDigit = true := by
  apply List.all_eq_true.mpr
  intro a ha
  exact (List.mem_filter.mp ha).2

/-- The digits-only invariant of the bank account field is preserved by every
change event. -/
theorem bank_digits_invariant (events : List (String × String))
    (form : FormState)
    (h : (form "bankAccountNumber").data.all Char.isDigit = true) :
    ((events.foldl (fun f ev => handleChange f ev.1 ev.2) form)
        "bankAccountNumber").data.all Char.isDigit = true := by
  induction events generalizing form with
  | nil => exact h
  | cons ev evs ih =>
    refine ih _ ?_
    unfold handleChange
    dsimp only
    by_cases hk : "bankAccountNumber" = ev.1
    · rw [if_pos hk, if_pos hk.symm]
      exact all_digits_strip ev.2
    · rw [if_neg hk]
      exact h

/-- C9: after any sequence of change events the stored bank account number
holds only digit characters, and a change event for any other field stores its
value verbatim while touching no other field. -/
theorem bank_account_digits_only (events : List (String × String))
    (form : FormState) (name value k : String)
    (hname : name ≠ "bankAccountNumber") :
    ((registerFormAfter events) "bankAccountNumber").data.all Char.isDigit
        = true ∧
    handleChange form name value k = (if k = name then value else form k) := by
  constructor
  · exact bank_digits_invariant events initialRegisterForm rfl
  · unfold handleChange
    by_cases hk : k = name
    · rw [if_pos hk, if_neg hname, if_pos hk]
    · rw [if_neg hk, if_neg hk]

/-- Witness for the C9 theorem: a bank account entry with a stray letter is
stored digits-only, and a phone change stores its value verbatim. -/
theorem bank_account_digits_only_witness :
    ((registerFormAfter [("bankAccountNumber", "12a3")])
        "bankAccountNumber").data.all Char.isDigit = true ∧
    handleChange initialRegisterForm "phone" "0712" "phone"
        = (if "phone" = "phone" then "0712" else initialRegisterForm "phone") :=
  bank_account_digits_only [("bankAccountNumber", "12a3")]
    initialRegisterForm "phone" "0712" "phone" (by decide)
